import Mathlib

/-!
Verification of the ilogtail output data path against its source.

Embedded source files:
* `core/monitor/metric_constants/MetricConstants.h` — the metric key surface.
* `pluginmanager/metric_export.go` — the Go metric-export entry points.
* `core/config/provider/ConfigProvider.cpp` — `ConfigProvider::Init`.
* `external/github.com/jeromer/syslogparser/rfc3164/rfc3164.go` — the RFC3164
  syslog parser (`Parse`, `parseTimestamp`, `parseTag`, `parseContent`).

Components whose implementation is not part of the available sources (the
bounded process/sender queues, the flusher runner's rate-limit fetch loop, the
end-to-end pipeline) are modelled from the specification; each such definition
carries a doc comment starting with `Modelled from the spec:`.
-/

namespace Logtail

/-! ## Metric constants (MetricConstants.h)

The header declares the metric-key surface as `extern const std::string`
constants; the defining translation unit with the literal string values is not
among the available sources. -/

/-- Modelled from the spec: the string value assigned in `MetricConstants.cpp`
(not among the sources) is unavailable, so each declared key is modelled by its
declared identifier, which the header guarantees to be unique. -/
def METRIC_LABEL_KEY_COMPONENT_NAME : String := "METRIC_LABEL_KEY_COMPONENT_NAME"

/-- Modelled from the spec: value from `MetricConstants.cpp`, modelled by the
declared identifier. -/
def METRIC_LABEL_KEY_FLUSHER_PLUGIN_ID : String := "METRIC_LABEL_KEY_FLUSHER_PLUGIN_ID"

/-- Modelled from the spec: value from `MetricConstants.cpp`, modelled by the
declared identifier. -/
def METRIC_LABEL_KEY_EXACTLY_ONCE_FLAG : String := "METRIC_LABEL_KEY_EXACTLY_ONCE_FLAG"

/-- Modelled from the spec: value from `MetricConstants.cpp`, modelled by the
declared identifier. -/
def METRIC_LABEL_KEY_QUEUE_TYPE : String := "METRIC_LABEL_KEY_QUEUE_TYPE"

/-- Component label keys declared at MetricConstants.h lines 169-172. -/
def componentLabelKeys : List String :=
  [METRIC_LABEL_KEY_COMPONENT_NAME, METRIC_LABEL_KEY_FLUSHER_PLUGIN_ID,
   METRIC_LABEL_KEY_EXACTLY_ONCE_FLAG, METRIC_LABEL_KEY_QUEUE_TYPE]

/-- Modelled from the spec: value from `MetricConstants.cpp`, modelled by the
declared identifier. -/
def METRIC_PLUGIN_FLUSHER_SUCCESS_TOTAL : String := "METRIC_PLUGIN_FLUSHER_SUCCESS_TOTAL"

/-- Modelled from the spec: value from `MetricConstants.cpp`, modelled by the
declared identifier. -/
def METRIC_PLUGIN_FLUSHER_NETWORK_ERROR_TOTAL : String := "METRIC_PLUGIN_FLUSHER_NETWORK_ERROR_TOTAL"

/-- Modelled from the spec: value from `MetricConstants.cpp`, modelled by the
declared identifier. -/
def METRIC_PLUGIN_FLUSHER_SERVER_ERROR_TOTAL : String := "METRIC_PLUGIN_FLUSHER_SERVER_ERROR_TOTAL"

/-- Modelled from the spec: value from `MetricConstants.cpp`, modelled by the
declared identifier. -/
def METRIC_PLUGIN_FLUSHER_UNAUTH_ERROR_TOTAL : String := "METRIC_PLUGIN_FLUSHER_UNAUTH_ERROR_TOTAL"

/-- Modelled from the spec: value from `MetricConstants.cpp`, modelled by the
declared identifier. -/
def METRIC_PLUGIN_FLUSHER_PARAMS_ERROR_TOTAL : String := "METRIC_PLUGIN_FLUSHER_PARAMS_ERROR_TOTAL"

/-- Modelled from the spec: value from `MetricConstants.cpp`, modelled by the
declared identifier. -/
def METRIC_PLUGIN_FLUSHER_OTHER_ERROR_TOTAL : String := "METRIC_PLUGIN_FLUSHER_OTHER_ERROR_TOTAL"

/-- Modelled from the spec: value from `MetricConstants.cpp`, modelled by the
declared identifier. -/
def METRIC_COMPONENT_QUEUE_SIZE : String := "METRIC_COMPONENT_QUEUE_SIZE"

/-- Modelled from the spec: value from `MetricConstants.cpp`, modelled by the
declared identifier. -/
def METRIC_COMPONENT_QUEUE_SIZE_BYTES : String := "METRIC_COMPONENT_QUEUE_SIZE_BYTES"

/-- Modelled from the spec: value from `MetricConstants.cpp`, modelled by the
declared identifier. -/
def METRIC_COMPONENT_QUEUE_VALID_TO_PUSH_FLAG : String := "METRIC_COMPONENT_QUEUE_VALID_TO_PUSH_FLAG"

/-- Modelled from the spec: value from `MetricConstants.cpp`, modelled by the
declared identifier. -/
def METRIC_COMPONENT_QUEUE_EXTRA_BUFFER_SIZE : String := "METRIC_COMPONENT_QUEUE_EXTRA_BUFFER_SIZE"

/-- Modelled from the spec: value from `MetricConstants.cpp`, modelled by the
declared identifier. -/
def METRIC_COMPONENT_QUEUE_EXTRA_BUFFER_SIZE_BYTES : String := "METRIC_COMPONENT_QUEUE_EXTRA_BUFFER_SIZE_BYTES"

/-- Modelled from the spec: value from `MetricConstants.cpp`, modelled by the
declared identifier. -/
def METRIC_COMPONENT_QUEUE_DISCARDED_EVENTS_TOTAL : String := "METRIC_COMPONENT_QUEUE_DISCARDED_EVENTS_TOTAL"

/-- Modelled from the spec: value from `MetricConstants.cpp`, modelled by the
declared identifier. -/
def METRIC_COMPONENT_FETCH_REJECTED_BY_REGION_LIMITER_TIMES_TOTAL : String :=
  "METRIC_COMPONENT_FETCH_REJECTED_BY_REGION_LIMITER_TIMES_TOTAL"

/-- Modelled from the spec: value from `MetricConstants.cpp`, modelled by the
declared identifier. -/
def METRIC_COMPONENT_FETCH_REJECTED_BY_PROJECT_LIMITER_TIMES_TOTAL : String :=
  "METRIC_COMPONENT_FETCH_REJECTED_BY_PROJECT_LIMITER_TIMES_TOTAL"

/-- Modelled from the spec: value from `MetricConstants.cpp`, modelled by the
declared identifier. -/
def METRIC_COMPONENT_FETCH_REJECTED_BY_LOGSTORE_LIMITER_TIMES_TOTAL : String :=
  "METRIC_COMPONENT_FETCH_REJECTED_BY_LOGSTORE_LIMITER_TIMES_TOTAL"

/-- Modelled from the spec: value from `MetricConstants.cpp`, modelled by the
declared identifier. -/
def METRIC_COMPONENT_FETCH_REJECTED_BY_RATE_LIMITER_TIMES_TOTAL : String :=
  "METRIC_COMPONENT_FETCH_REJECTED_BY_RATE_LIMITER_TIMES_TOTAL"

/-! ## Delivery outcomes and their flusher counter keys -/

/-- The six delivery-outcome classes of §3 of the specification, matching the
per-class flusher counters declared at MetricConstants.h lines 120-127. -/
inductive DeliveryOutcome where
  | success
  | networkError
  | serverError
  | unauthorizedError
  | paramsError
  | otherError
deriving DecidableEq

/-- All six outcome classes. -/
def allDeliveryOutcomes : List DeliveryOutcome :=
  [.success, .networkError, .serverError, .unauthorizedError, .paramsError, .otherError]

/-- The per-class flusher counter key (MetricConstants.h lines 122-127). -/
def outcomeCounterKey : DeliveryOutcome → String
  | .success => METRIC_PLUGIN_FLUSHER_SUCCESS_TOTAL
  | .networkError => METRIC_PLUGIN_FLUSHER_NETWORK_ERROR_TOTAL
  | .serverError => METRIC_PLUGIN_FLUSHER_SERVER_ERROR_TOTAL
  | .unauthorizedError => METRIC_PLUGIN_FLUSHER_UNAUTH_ERROR_TOTAL
  | .paramsError => METRIC_PLUGIN_FLUSHER_PARAMS_ERROR_TOTAL
  | .otherError => METRIC_PLUGIN_FLUSHER_OTHER_ERROR_TOTAL

/-! ## Queue metric surface -/

/-- The six queue component metrics declared at MetricConstants.h lines 205-210. -/
inductive QueueMetric where
  | size
  | sizeBytes
  | validToPushFlag
  | extraBufferSize
  | extraBufferSizeBytes
  | discardedEventsTotal
deriving DecidableEq

/-- All six queue metrics. -/
def allQueueMetrics : List QueueMetric :=
  [.size, .sizeBytes, .validToPushFlag, .extraBufferSize, .extraBufferSizeBytes,
   .discardedEventsTotal]

/-- The key declared for each queue component metric. -/
def queueMetricKey : QueueMetric → String
  | .size => METRIC_COMPONENT_QUEUE_SIZE
  | .sizeBytes => METRIC_COMPONENT_QUEUE_SIZE_BYTES
  | .validToPushFlag => METRIC_COMPONENT_QUEUE_VALID_TO_PUSH_FLAG
  | .extraBufferSize => METRIC_COMPONENT_QUEUE_EXTRA_BUFFER_SIZE
  | .extraBufferSizeBytes => METRIC_COMPONENT_QUEUE_EXTRA_BUFFER_SIZE_BYTES
  | .discardedEventsTotal => METRIC_COMPONENT_QUEUE_DISCARDED_EVENTS_TOTAL

/-! ## Rate limiter scopes -/

/-- The four rate-limiter scopes of §4.6 of the specification. -/
inductive RateLimiterScope where
  | global
  | region
  | project
  | logicalStore
deriving DecidableEq

/-- All four scopes, in the order the fetch loop consults them. -/
def allRateLimiterScopes : List RateLimiterScope :=
  [.global, .region, .project, .logicalStore]

/-- The scope-specific fetch rejection counter key (MetricConstants.h lines
214-217); the unscoped rate-limiter key counts the global scope. -/
def scopeRejectionKey : RateLimiterScope → String
  | .global => METRIC_COMPONENT_FETCH_REJECTED_BY_RATE_LIMITER_TIMES_TOTAL
  | .region => METRIC_COMPONENT_FETCH_REJECTED_BY_REGION_LIMITER_TIMES_TOTAL
  | .project => METRIC_COMPONENT_FETCH_REJECTED_BY_PROJECT_LIMITER_TIMES_TOTAL
  | .logicalStore => METRIC_COMPONENT_FETCH_REJECTED_BY_LOGSTORE_LIMITER_TIMES_TOTAL

/-! ## Metric export (pluginmanager/metric_export.go) -/

/-- One metric emission: a Go `map[string]string`, a flat mapping of string
label/value pairs, modelled as an association list. -/
abbrev MetricRecord := List (String × String)

/-- A Go slice value; Go distinguishes a nil slice from a non-nil empty one. -/
structure GoSlice (α : Type) where
  isNil : Bool
  elems : List α
deriving DecidableEq

/-- `MetricExportTypeGo` (metric_export.go line 26). -/
def MetricExportTypeGo : String := "direct"

/-- `MetricExportTypeCpp` (metric_export.go line 27). -/
def MetricExportTypeCpp : String := "cpp_provided"

/-- `GetGoDirectMetrics` (metric_export.go lines 52-59): starts from a non-nil
empty slice and appends the go plugin metrics and the k8s meta metrics. The two
sources read global state and enter the embedding as parameters. -/
def GetGoDirectMetrics (pluginMetrics k8sMetaMetrics : List MetricRecord) :
    GoSlice MetricRecord :=
  { isNil := false, elems := pluginMetrics ++ k8sMetaMetrics }

/-- `GetGoCppProvidedMetrics` (metric_export.go lines 69-74): starts from a
non-nil empty slice and appends the agent-level metrics. -/
def GetGoCppProvidedMetrics (agentStat : List MetricRecord) : GoSlice MetricRecord :=
  { isNil := false, elems := agentStat }

/-- `GetMetrics` (metric_export.go lines 30-38). -/
def GetMetrics (metricType : String) (pluginMetrics k8sMetaMetrics agentStat : List MetricRecord) :
    GoSlice MetricRecord :=
  if metricType = MetricExportTypeGo then
    GetGoDirectMetrics pluginMetrics k8sMetaMetrics
  else if metricType = MetricExportTypeCpp then
    GetGoCppProvidedMetrics agentStat
  else
    { isNil := false, elems := [] }

/-! ## Bounded queue model (spec §3 "Queue", §4.1 Process Queue, §4.5 Sender Queue) -/

/-- A queue key: destination identity {region, project, logical-store, shard}
(spec §3). -/
structure QueueKey where
  region : String
  project : String
  logstore : String
  shard : Nat
deriving DecidableEq

/-- Modelled from the spec: the bounded queue implementation (C++ process/sender
queue classes) is not among the sources. One key's buffer: an ordered sequence
of elements plus the discard counter, with capacity `cap` and overflow
allowance `ovf` supplied at use sites. -/
structure BoundedQueue (α : Type) where
  items : List α
  discardedCnt : Nat

/-- Modelled from the spec: `Push` appends and returns true while the element
count is below `capacity + overflow`; beyond that it rejects, increments the
discard counter and returns false (spec §4.1, §8). -/
def pushQ (cap ovf : Nat) (q : BoundedQueue α) (x : α) : BoundedQueue α × Bool :=
  if q.items.length < cap + ovf then
    ({ q with items := q.items ++ [x] }, true)
  else
    ({ q with discardedCnt := q.discardedCnt + 1 }, false)

/-- Modelled from the spec: non-blocking `Pop` removes and returns the oldest
element when one exists (spec §4.1). -/
def popQ (q : BoundedQueue α) : BoundedQueue α × Option α :=
  match q.items with
  | [] => (q, none)
  | x :: rest => ({ q with items := rest }, some x)

/-- A push or pop operation addressed to one key. -/
inductive QOp (α : Type) where
  | push (k : QueueKey) (x : α)
  | pop (k : QueueKey)

/-- Per-key simulation state: the queue plus the observable history — the
boolean result of every push attempted and the elements popped. -/
structure KeyState (α : Type) where
  q : BoundedQueue α
  pushResults : List Bool
  popped : List α

/-- The initial state of a key: empty queue, zero discard counter. -/
def emptyKeyState : KeyState α :=
  { q := { items := [], discardedCnt := 0 }, pushResults := [], popped := [] }

/-- Apply one operation to the keyed queue map; only the addressed key's state
changes (spec §5: each key's state is independent). -/
def applyOp (cap ovf : Nat) (st : QueueKey → KeyState α) : QOp α → QueueKey → KeyState α
  | .push k x => fun k' =>
      if k' = k then
        let r := pushQ cap ovf (st k).q x
        { q := r.1, pushResults := (st k).pushResults ++ [r.2], popped := (st k).popped }
      else st k'
  | .pop k => fun k' =>
      if k' = k then
        let r := popQ (st k).q
        { q := r.1, pushResults := (st k).pushResults, popped := (st k).popped ++ r.2.toList }
      else st k'

/-- Run a sequence of operations from a given state. -/
def runOpsFrom (cap ovf : Nat) (st : QueueKey → KeyState α) : List (QOp α) → QueueKey → KeyState α
  | [] => st
  | op :: rest => runOpsFrom cap ovf (applyOp cap ovf st op) rest

/-- Run a sequence of operations from the empty keyed queue map. -/
def runOps (cap ovf : Nat) (ops : List (QOp α)) : QueueKey → KeyState α :=
  runOpsFrom cap ovf (fun _ => emptyKeyState) ops

/-- The per-key invariant: occupancy never exceeds `cap + ovf`, the discard
counter equals the number of rejected pushes, and every accepted push is
accounted for by the current contents or a pop. -/
def KInv (cap ovf : Nat) (s : KeyState α) : Prop :=
  s.q.items.length ≤ cap + ovf
  ∧ s.q.discardedCnt = s.pushResults.count false
  ∧ s.q.items.length + s.popped.length = s.pushResults.count true

/-! ## End-to-end FIFO model (spec §2, §4.2-§4.5, §8) -/

/-- Modelled from the spec: per-key view of the data path — the accepted
arrival history at the Process Queue, the Process Queue contents, and the
flattened sequence of events inside Items ever appended to the Sender Queue.
The batcher / router / serializer stages (not among the sources) close a batch
of the oldest buffered groups and hand it downstream in order (spec §4.2-§4.4). -/
structure PipeKeyState where
  arrivals : List Nat
  procQ : List Nat
  senderLog : List Nat

/-- A pipeline step: an event group arrives for a key, or the batcher closes a
batch of the oldest `n` buffered groups of a key and appends the resulting Item
to that key's Sender Queue. -/
inductive PipeStep where
  | arrive (k : QueueKey) (e : Nat)
  | transfer (k : QueueKey) (n : Nat)

/-- Modelled from the spec: apply one pipeline step. Arrivals beyond the
process-queue bound are discarded (never reordered); a transfer moves the
oldest `n` groups downstream in order. -/
def pipeApply (capTotal : Nat) (st : QueueKey → PipeKeyState) : PipeStep → QueueKey → PipeKeyState
  | .arrive k e => fun k' =>
      if k' = k then
        if (st k).procQ.length < capTotal then
          { arrivals := (st k).arrivals ++ [e], procQ := (st k).procQ ++ [e],
            senderLog := (st k).senderLog }
        else st k
      else st k'
  | .transfer k n => fun k' =>
      if k' = k then
        { arrivals := (st k).arrivals, procQ := (st k).procQ.drop n,
          senderLog := (st k).senderLog ++ (st k).procQ.take n }
      else st k'

/-- Run pipeline steps from a given state. -/
def pipeRunFrom (capTotal : Nat) (st : QueueKey → PipeKeyState) : List PipeStep → QueueKey → PipeKeyState
  | [] => st
  | s :: rest => pipeRunFrom capTotal (pipeApply capTotal st s) rest

/-- Run pipeline steps from the empty pipeline. -/
def pipeRun (capTotal : Nat) (steps : List PipeStep) : QueueKey → PipeKeyState :=
  pipeRunFrom capTotal (fun _ => { arrivals := [], procQ := [], senderLog := [] }) steps

/-- The FIFO invariant of one key: what was ever appended to the Sender Queue,
followed by what still waits in the Process Queue, is exactly the accepted
arrival history in order. -/
def PipeInv (s : PipeKeyState) : Prop :=
  s.senderLog ++ s.procQ = s.arrivals

/-! ## Rate-limited fetch model (spec §4.6) -/

/-- Modelled from the spec: the flusher runner's fetch state for one sender
queue — the pending Items, the per-scope rejection counters, and the Items
fetched so far. The runner implementation is not among the sources. -/
structure FetchState where
  queue : List Nat
  rejections : RateLimiterScope → Nat
  fetched : List Nat

/-- Increment one scope's rejection counter. -/
def bumpRejection (s : FetchState) (sc : RateLimiterScope) : FetchState :=
  { s with rejections := fun sc' => if sc' = sc then s.rejections sc' + 1 else s.rejections sc' }

/-- The first scope whose `TryAcquire` fails, if any. -/
def firstFailing (acquire : RateLimiterScope → Bool) : Option RateLimiterScope :=
  allRateLimiterScopes.find? (fun sc => !(acquire sc))

/-- Modelled from the spec: one fetch attempt must pass acquisition at all
scopes; failing any one scope counts that scope's rejection metric and leaves
the Item in place (spec §4.6). -/
def tryFetch (acquire : RateLimiterScope → Bool) (s : FetchState) : FetchState :=
  match firstFailing acquire with
  | some sc => bumpRejection s sc
  | none =>
    match s.queue with
    | [] => s
    | x :: rest => { s with queue := rest, fetched := s.fetched ++ [x] }

/-! ## ConfigProvider::Init (core/config/provider/ConfigProvider.cpp) -/

/-- The two watcher singletons `ConfigProvider::Init` registers sources with. -/
inductive WatcherId where
  | pipelineConfigWatcher
  | instanceConfigWatcher
deriving DecidableEq

/-- An externally visible effect of `ConfigProvider::Init`. Paths are lists of
components; `createDirectories` models `std::filesystem::create_directories`
called with an `error_code`, whose failure is ignored. -/
inductive InitEffect where
  | createDirectories (p : List String)
  | addSource (w : WatcherId) (p : List String)
deriving DecidableEq

/-- The provider state `Init` touches, plus an abstract remainder `other` that
stands for every other member of the provider. -/
structure ConfigProviderState (α : Type) where
  mPipelineSourceDir : List String
  mInstanceSourceDir : List String
  other : α

/-- `ConfigProvider::Init` (ConfigProvider.cpp lines 25-42): build
`<confDir>/pipeline_config/<dir>` and `<confDir>/instance_config/<dir>`, create
each directory ignoring errors, and register each with its watcher. -/
def ConfigProvider.Init (confDir : List String) (dir : String) (st : ConfigProviderState α) :
    ConfigProviderState α × List InitEffect :=
  let pipelineDir := confDir ++ ["pipeline_config", dir]
  let instanceDir := confDir ++ ["instance_config", dir]
  ({ mPipelineSourceDir := pipelineDir, mInstanceSourceDir := instanceDir, other := st.other },
   [.createDirectories pipelineDir, .addSource .pipelineConfigWatcher pipelineDir,
    .createDirectories instanceDir, .addSource .instanceConfigWatcher instanceDir])

/-- Keep only the watcher registrations of an effect trace. -/
def registrations (effects : List InitEffect) : List InitEffect :=
  effects.filter fun e =>
    match e with
    | .addSource _ _ => true
    | _ => false

/-! ## RFC3164 syslog parser (rfc3164/rfc3164.go)

The buffer is a Go byte slice; its (ASCII) bytes are modelled as `Char`s. The
subpackage functions `syslogparser.ParsePriority` / `ParseHostname` and the Go
standard library's `time.ParseInLocation` are outside the available sources and
are modelled; only their error results and cursor movement feed back into
`Parse`. -/

/-- The error values the parser can return. -/
inductive SyslogErr where
  | priorityNoStart
  | priorityEmpty
  | priorityTooLong
  | priorityNonDigit
  | timestampUnknownFormat
deriving DecidableEq

/-- An ASCII digit. -/
def isDigitC (c : Char) : Bool := '0' ≤ c && c ≤ '9'

/-- Modelled from the spec: loop of `syslogparser.ParsePriority` (subpackage
not among the sources): scan digits from index 1 while `i < l`, at most to
index 4; a closing angle bracket after at least one digit succeeds, leaving the
cursor just past it. `fuel` counts the remaining `i < l` iterations. -/
def parsePriorityLoop (buff : List Char) : Nat → Nat → Nat → Except SyslogErr (Nat × Nat)
  | 0, _, _ => .error .priorityEmpty
  | fuel + 1, i, acc =>
    if 5 ≤ i then .error .priorityTooLong
    else
      let c := buff.getD i '\x00'
      if c = '>' then
        if i = 1 then .error .priorityEmpty
        else .ok (acc, i + 1)
      else if isDigitC c then
        parsePriorityLoop buff fuel (i + 1) (acc * 10 + (c.toNat - 48))
      else .error .priorityNonDigit

/-- Modelled from the spec: `syslogparser.ParsePriority` — an empty buffer or a
missing opening angle bracket fails; otherwise the digit loop decides. Returns
the priority value and the new cursor. -/
def ParsePriority (buff : List Char) (cursor l : Nat) : Except SyslogErr (Nat × Nat) :=
  if l = 0 then .error .priorityEmpty
  else if buff.getD cursor '\x00' ≠ '<' then .error .priorityNoStart
  else parsePriorityLoop buff (l - 1) 1 0

/-- Days each month abbreviation can carry (February with its leap maximum, as
for the zero year the Go parser defaults to). -/
def monthMaxDay (m : List Char) : Option Nat :=
  (([(['J','a','n'], 31), (['F','e','b'], 29), (['M','a','r'], 31), (['A','p','r'], 30),
     (['M','a','y'], 31), (['J','u','n'], 30), (['J','u','l'], 31), (['A','u','g'], 31),
     (['S','e','p'], 30), (['O','c','t'], 31), (['N','o','v'], 30), (['D','e','c'], 31)]
    : List (List Char × Nat)).find? (fun p => p.1 == m)).map (fun p => p.2)

/-- Two ASCII digits as a number. -/
def digit2 (a b : Char) : Option Nat :=
  if isDigitC a && isDigitC b then some ((a.toNat - 48) * 10 + (b.toNat - 48)) else none

/-- Modelled from the spec: Go `time.ParseInLocation` (standard library, not
among the sources) restricted to the layout `Jan 02 15:04:05`: month
abbreviation, space, two-digit day, space, in-range `HH:MM:SS`, the day within
the month's length. -/
def tsMatchPadded (sub : List Char) : Bool :=
  match sub with
  | [m1, m2, m3, s1, d1, d2, s2, h1, h2, c1, n1, n2, c2, e1, e2] =>
    (match monthMaxDay [m1, m2, m3], digit2 d1 d2, digit2 h1 h2, digit2 n1 n2, digit2 e1 e2 with
     | some maxd, some day, some hh, some mm, some ss =>
       s1 == ' ' && s2 == ' ' && c1 == ':' && c2 == ':' &&
       decide (1 ≤ day) && decide (day ≤ maxd) && decide (hh ≤ 23) && decide (mm ≤ 59)
       && decide (ss ≤ 59)
     | _, _, _, _, _ => false)
  | _ => false

/-- Modelled from the spec: Go `time.ParseInLocation` restricted to the layout
`Jan  2 15:04:05`: as `tsMatchPadded` but with a space-padded single-digit day. -/
def tsMatchSpacePadded (sub : List Char) : Bool :=
  match sub with
  | [m1, m2, m3, s1, s2, d1, s3, h1, h2, c1, n1, n2, c2, e1, e2] =>
    (match monthMaxDay [m1, m2, m3], digit2 h1 h2, digit2 n1 n2, digit2 e1 e2 with
     | some _, some hh, some mm, some ss =>
       s1 == ' ' && s2 == ' ' && s3 == ' ' && isDigitC d1 && decide (1 ≤ d1.toNat - 48) &&
       c1 == ':' && c2 == ':' && decide (hh ≤ 23) && decide (mm ≤ 59) && decide (ss ≤ 59)
     | _, _, _, _ => false)
  | _ => false

/-- Both timestamp layouts have length 15 (rfc3164.go lines 163-166). -/
def tsFmtLen : Nat := 15

/-- `Parser.parseTimestamp` (rfc3164.go lines 157-205): try both layouts on the
15-byte window at the cursor; on success advance past it, on failure set the
cursor to the layout length; in either case skip one following space when the
next byte is in bounds and is a space. Returns the parse result (the timestamp
value itself plays no further role here) and the new cursor. -/
def parseTimestamp (buff : List Char) (cursor l : Nat) : Except SyslogErr Unit × Nat :=
  let canSlice := cursor + tsFmtLen ≤ l
  let sub := (buff.drop cursor).take tsFmtLen
  if canSlice && (tsMatchPadded sub || tsMatchSpacePadded sub) then
    let c1 := cursor + tsFmtLen
    (.ok (), if c1 < l && buff.getD c1 '\x00' = ' ' then c1 + 1 else c1)
  else
    let c1 := tsFmtLen
    (.error .timestampUnknownFormat, if c1 < l && buff.getD c1 '\x00' = ' ' then c1 + 1 else c1)

/-- First index at or after `i` holding a space, else `l`; `fuel` is `l - i`.
Models the scan loop of `syslogparser.ParseHostname`. -/
def scanToSpace (buff : List Char) : Nat → Nat → Nat
  | 0, i => i
  | fuel + 1, i => if buff.getD i '\x00' = ' ' then i else scanToSpace buff fuel (i + 1)

/-- Modelled from the spec: `syslogparser.ParseHostname` (subpackage not among
the sources): take bytes up to the first space (or the end of the buffer),
leave the cursor there, and never fail. -/
def ParseHostname (buff : List Char) (cursor l : Nat) : List Char × Nat :=
  let j := scanToSpace buff (l - cursor) cursor
  ((buff.drop cursor).take (j - cursor), j)

/-- `Parser.parseHostname` (rfc3164.go lines 207-213): a preset hostname is
returned as is without touching the cursor; otherwise delegate. -/
def parseHostname (presetHostname : List Char) (buff : List Char) (cursor l : Nat) :
    List Char × Nat :=
  if presetHostname ≠ [] then (presetHostname, cursor)
  else ParseHostname buff cursor l

/-- `Parser.parseHeader` (rfc3164.go lines 116-134): timestamp then hostname;
a timestamp error aborts the header. -/
def parseHeader (presetHostname : List Char) (buff : List Char) (cursor l : Nat) :
    Except SyslogErr (List Char) × Nat :=
  match parseTimestamp buff cursor l with
  | (.error e, c2) => (.error e, c2)
  | (.ok _, c2) =>
    let r := parseHostname presetHostname buff c2 l
    (.ok r.1, r.2)

/-- Loop of `Parser.parseTag` (rfc3164.go lines 232-248): scan while the
cursor is below `limit` (`fuel` counts the remaining iterations): a space ends
the tag and is consumed; brackets and colons are skipped and from then on
(`enough`) every byte is skipped; any other byte joins the tag. -/
def parseTagLoop (buff : List Char) : Nat → Nat → List Char → Bool → List Char × Nat
  | 0, cursor, tag, _ => (tag, cursor)
  | fuel + 1, cursor, tag, enough =>
    let b := buff.getD cursor '\x00'
    if b = ' ' then (tag, cursor + 1)
    else if b = '[' || b = ']' || b = ':' || enough then
      parseTagLoop buff fuel (cursor + 1) tag true
    else
      parseTagLoop buff fuel (cursor + 1) (tag ++ [b]) enough

/-- `Parser.parseTag` (rfc3164.go lines 216-255): the scan window ends at
`min l (cursor + 32)`; when the collected tag is empty the cursor is restored
to its entry value. The error result is always nil in the source and is
omitted. -/
def parseTag (buff : List Char) (cursor : Nat) : List Char × Nat :=
  let limit := min buff.length (cursor + 32)
  let r := parseTagLoop buff (limit - cursor) cursor [] false
  if r.1.length = 0 then ([], cursor) else r

/-- `bytes.Trim(·, " ")`: drop spaces from both ends. -/
def trimSpaces (xs : List Char) : List Char :=
  ((xs.dropWhile (fun c => c = ' ')).reverse.dropWhile (fun c => c = ' ')).reverse

/-- `Parser.parseContent` (rfc3164.go lines 257-266): past-the-end cursor
yields empty content; otherwise the rest of the buffer with surrounding spaces
trimmed, the cursor advanced by the content length. The source always reports
`ErrEOL` here, which `Parse` treats as success. -/
def parseContent (buff : List Char) (cursor l : Nat) : List Char × Nat :=
  if l < cursor then ([], cursor)
  else
    let content := trimSpaces ((buff.drop cursor).take (l - cursor))
    (content, cursor + content.length)

/-- The result of `Parser.Parse` in a total embedding: success, a returned
error, or the out-of-range buffer access `p.buff[p.cursor]` at rfc3164.go line
71 (which the Go runtime turns into an index-out-of-range panic). -/
inductive ParseOutcome where
  | parsed (tag content : List Char) (cursor : Nat)
  | failed (e : SyslogErr)
  | indexOutOfRange (idx len : Nat)
deriving DecidableEq

/-- `Parser.Parse` (rfc3164.go lines 60-86): priority, then header, then the
unguarded space check at line 71, then the message (tag and content). Indexing
is total: the check at line 71 reads the byte at the cursor only when the
cursor is inside the buffer, and reports `indexOutOfRange` otherwise. -/
def Parse (presetHostname : List Char) (buff : List Char) : ParseOutcome :=
  let l := buff.length
  match ParsePriority buff 0 l with
  | .error e => .failed e
  | .ok pc =>
    match parseHeader presetHostname buff pc.2 l with
    | (.error e, _) => .failed e
    | (.ok _, c2) =>
      if c2 < l then
        let c3 := if buff.getD c2 '\x00' = ' ' then c2 + 1 else c2
        let t := parseTag buff c3
        let c := parseContent buff t.2 l
        .parsed t.1 c.1 c.2
      else .indexOutOfRange c2 l

/-! ## Helper lemmas -/

/-- The collected tag grows by at most one byte per remaining iteration. -/
theorem parseTagLoop_length_le (buff : List Char) :
    ∀ (fuel cursor : Nat) (tag : List Char) (enough : Bool),
      (parseTagLoop buff fuel cursor tag enough).1.length ≤ tag.length + fuel := by
  intro fuel
  induction fuel with
  | zero => intro c t e; simp [parseTagLoop]
  | succ n ih =>
    intro c t e
    simp only [parseTagLoop]
    split
    · simp
    · split
      · exact le_trans (ih (c + 1) t true) (by omega)
      · exact le_trans (ih (c + 1) (t ++ [buff.getD c '\x00']) e) (by simp; omega)

/-- The empty keyed queue map satisfies the per-key invariant. -/
theorem KInv_empty (cap ovf : Nat) : KInv (α := α) cap ovf emptyKeyState := by
  unfold KInv emptyKeyState
  simp

/-- One queue operation preserves the per-key invariant at every key. -/
theorem KInv_applyOp (cap ovf : Nat) (st : QueueKey → KeyState α) (op : QOp α)
    (h : ∀ k, KInv cap ovf (st k)) (k : QueueKey) :
    KInv cap ovf (applyOp cap ovf st op k) := by
  cases op with
  | push k0 x =>
    by_cases hk : k = k0
    · have h0 := h k0
      unfold KInv at h0 ⊢
      obtain ⟨h1, h2, h3⟩ := h0
      simp only [applyOp, if_pos hk]
      unfold pushQ
      by_cases hlt : (st k0).q.items.length < cap + ovf
      · simp only [if_pos hlt]
        simp [List.count_append]
        omega
      · simp only [if_neg hlt]
        simp [List.count_append]
        omega
    · simpa [applyOp, if_neg hk] using h k
  | pop k0 =>
    by_cases hk : k = k0
    · have h0 := h k0
      unfold KInv at h0 ⊢
      obtain ⟨h1, h2, h3⟩ := h0
      simp only [applyOp, if_pos hk]
      rcases hq : (st k0).q.items with _ | ⟨y, rest⟩
      · rw [hq] at h3
        simp only [List.length_nil, Nat.zero_add] at h3
        simp [popQ, hq]
        exact ⟨h2, h3⟩
      · rw [hq] at h1 h3
        simp only [List.length_cons] at h1 h3
        simp [popQ, hq]
        refine ⟨by omega, h2, by omega⟩
    · simpa [applyOp, if_neg hk] using h k

/-- Running any operation sequence preserves the per-key invariant. -/
theorem KInv_runOpsFrom (cap ovf : Nat) (ops : List (QOp α)) :
    ∀ st : QueueKey → KeyState α, (∀ k, KInv cap ovf (st k)) →
      ∀ k, KInv cap ovf (runOpsFrom cap ovf st ops k) := by
  induction ops with
  | nil => intro st h k; exact h k
  | cons op rest ih =>
    intro st h k
    simp only [runOpsFrom]
    exact ih (applyOp cap ovf st op) (fun k' => KInv_applyOp cap ovf st op h k') k

/-- One pipeline step preserves the FIFO invariant at every key. -/
theorem PipeInv_apply (capTotal : Nat) (st : QueueKey → PipeKeyState) (s : PipeStep)
    (h : ∀ k, PipeInv (st k)) (k : QueueKey) : PipeInv (pipeApply capTotal st s k) := by
  cases s with
  | arrive k0 e =>
    by_cases hk : k = k0
    · unfold PipeInv at *
      simp only [pipeApply, if_pos hk]
      split
      · rw [← List.append_assoc, h k0]
      · exact h k0
    · simpa [pipeApply, if_neg hk] using h k
  | transfer k0 n =>
    by_cases hk : k = k0
    · unfold PipeInv at *
      simp only [pipeApply, if_pos hk]
      rw [List.append_assoc, List.take_append_drop]
      exact h k0
    · simpa [pipeApply, if_neg hk] using h k

/-- Running any step sequence preserves the FIFO invariant. -/
theorem PipeInv_runFrom (capTotal : Nat) (steps : List PipeStep) :
    ∀ st : QueueKey → PipeKeyState, (∀ k, PipeInv (st k)) →
      ∀ k, PipeInv (pipeRunFrom capTotal st steps k) := by
  induction steps with
  | nil => intro st h k; exact h k
  | cons s rest ih =>
    intro st h k
    simp only [pipeRunFrom]
    exact ih (pipeApply capTotal st s) (fun k' => PipeInv_apply capTotal st s h k') k

/-! ## Claim theorems -/

/-- C1: after any sequence of Push and Pop operations, no key's queue ever
holds more than `capacity + overflow` elements; the discard counter equals
exactly the number of rejected pushes; and a further push appends and returns
true below the bound, or rejects, returns false and bumps the discard counter
by one at the bound. -/
theorem queue_capacity_and_discard (cap ovf : Nat) (ops : List (QOp Nat)) (k : QueueKey)
    (x : Nat) :
    (runOps cap ovf ops k).q.items.length ≤ cap + ovf
    ∧ (runOps cap ovf ops k).q.discardedCnt = (runOps cap ovf ops k).pushResults.count false
    ∧ pushQ cap ovf (runOps cap ovf ops k).q x =
        (if (runOps cap ovf ops k).q.items.length < cap + ovf then
          ({ items := (runOps cap ovf ops k).q.items ++ [x],
             discardedCnt := (runOps cap ovf ops k).q.discardedCnt }, true)
        else
          ({ items := (runOps cap ovf ops k).q.items,
             discardedCnt := (runOps cap ovf ops k).q.discardedCnt + 1 }, false)) := by
  have h := KInv_runOpsFrom cap ovf ops (fun _ => emptyKeyState) (fun _ => KInv_empty cap ovf) k
  unfold KInv at h
  unfold runOps
  refine ⟨h.1, h.2.1, ?_⟩
  unfold pushQ
  split <;> rfl

/-- C2: for every key, the flattened sequence of events inside Items ever
appended to the Sender Queue, followed by what still waits in the Process
Queue, equals the accepted arrival history in order — per-key FIFO holds
end-to-end and nothing is ever reordered between the two queues. -/
theorem pipeline_fifo_per_key (capTotal : Nat) (steps : List PipeStep) (k : QueueKey) :
    (pipeRun capTotal steps k).senderLog ++ (pipeRun capTotal steps k).procQ
      = (pipeRun capTotal steps k).arrivals := by
  have h := PipeInv_runFrom capTotal steps (fun _ => { arrivals := [], procQ := [], senderLog := [] })
    (fun _ => rfl) k
  exact h

/-- C3: every metric emission of `GetMetrics` is a flat string-to-string map
and the emitted list is exactly the per-instance snapshots of one of the
sources (or empty); the component label-key surface carries the four
namespacing keys for component name, flusher plugin id, queue type and
exactly-once flag, pairwise distinct. -/
theorem metric_emission_shape_and_component_labels (t : String)
    (pm km ag : List MetricRecord) :
    ((GetMetrics t pm km ag).elems = pm ++ km
      ∨ (GetMetrics t pm km ag).elems = ag
      ∨ (GetMetrics t pm km ag).elems = [])
    ∧ METRIC_LABEL_KEY_COMPONENT_NAME ∈ componentLabelKeys
    ∧ METRIC_LABEL_KEY_FLUSHER_PLUGIN_ID ∈ componentLabelKeys
    ∧ METRIC_LABEL_KEY_QUEUE_TYPE ∈ componentLabelKeys
    ∧ METRIC_LABEL_KEY_EXACTLY_ONCE_FLAG ∈ componentLabelKeys
    ∧ componentLabelKeys.Nodup := by
  refine ⟨?_, by decide, by decide, by decide, by decide, by decide⟩
  unfold GetMetrics GetGoDirectMetrics GetGoCppProvidedMetrics
  split_ifs <;> simp

/-- C4: each of the six delivery-outcome classes has its own flusher counter
key and the six keys are pairwise different. -/
theorem delivery_outcome_counter_keys_distinct :
    (∀ o : DeliveryOutcome, o ∈ allDeliveryOutcomes)
    ∧ (allDeliveryOutcomes.map outcomeCounterKey).Nodup := by
  constructor
  · intro o; cases o <;> simp [allDeliveryOutcomes]
  · decide

/-- C5: the four rate-limiter scopes carry four pairwise-distinct rejection
counter keys, and a fetch attempt that fails acquisition at a scope leaves the
queue untouched while incrementing exactly that scope's rejection counter. -/
theorem fetch_rejection_scoped (acquire : RateLimiterScope → Bool) (s : FetchState)
    (sc : RateLimiterScope) (h : firstFailing acquire = some sc) :
    ((∀ m : RateLimiterScope, m ∈ allRateLimiterScopes)
      ∧ (allRateLimiterScopes.map scopeRejectionKey).Nodup)
    ∧ (tryFetch acquire s).queue = s.queue
    ∧ (tryFetch acquire s).rejections sc = s.rejections sc + 1
    ∧ ∀ sc', sc' ≠ sc → (tryFetch acquire s).rejections sc' = s.rejections sc' := by
  refine ⟨⟨fun m => by cases m <;> simp [allRateLimiterScopes], by decide⟩, ?_, ?_, ?_⟩
  · simp [tryFetch, h, bumpRejection]
  · simp [tryFetch, h, bumpRejection]
  · intro sc' hne
    simp [tryFetch, h, bumpRejection, hne]

/-- Witness for C5: with region acquisition failing, the queue is untouched. -/
theorem fetch_rejection_scoped_witness :
    (tryFetch (fun m => decide (m ≠ RateLimiterScope.region))
        { queue := [7], rejections := fun _ => 0, fetched := [] }).queue = [7] :=
  (fetch_rejection_scoped (fun m => decide (m ≠ RateLimiterScope.region))
      { queue := [7], rejections := fun _ => 0, fetched := [] }
      RateLimiterScope.region (by rfl)).2.1

/-- C6: the queue component metric surface — size in count and bytes,
extra-buffer usage in count and bytes, discarded-event count, valid-to-push
flag — consists of six pairwise-distinct keys. -/
theorem queue_metric_keys_distinct :
    (∀ m : QueueMetric, m ∈ allQueueMetrics)
    ∧ (allQueueMetrics.map queueMetricKey).Nodup := by
  constructor
  · intro m; cases m <;> simp [allQueueMetrics]
  · decide

/-- C7: `ConfigProvider::Init` registers exactly the pipeline-configuration
directory with the pipeline watcher and the instance-configuration directory
with the instance watcher, creating each directory immediately before its
registration, and changes no provider state beyond the two source-directory
members. -/
theorem configProvider_init_effects {α : Type} (confDir : List String) (dir : String)
    (st : ConfigProviderState α) :
    registrations (ConfigProvider.Init confDir dir st).2
      = [.addSource .pipelineConfigWatcher (confDir ++ ["pipeline_config", dir]),
         .addSource .instanceConfigWatcher (confDir ++ ["instance_config", dir])]
    ∧ (ConfigProvider.Init confDir dir st).2
      = [.createDirectories (confDir ++ ["pipeline_config", dir]),
         .addSource .pipelineConfigWatcher (confDir ++ ["pipeline_config", dir]),
         .createDirectories (confDir ++ ["instance_config", dir]),
         .addSource .instanceConfigWatcher (confDir ++ ["instance_config", dir])]
    ∧ (ConfigProvider.Init confDir dir st).1.mPipelineSourceDir
        = confDir ++ ["pipeline_config", dir]
    ∧ (ConfigProvider.Init confDir dir st).1.mInstanceSourceDir
        = confDir ++ ["instance_config", dir]
    ∧ (ConfigProvider.Init confDir dir st).1.other = st.other :=
  ⟨rfl, rfl, rfl, rfl, rfl⟩

/-- C8 (code bug): on the well-formed truncated input
`<34>Oct 11 22:14:15 host`, priority and header parsing succeed with the
cursor at the end of the 24-byte buffer, and the unguarded space check at
rfc3164.go line 71 reads index 24 of a 24-byte buffer — the out-of-range
branch of the total embedding is reached, contradicting the claimed in-bounds
property. -/
theorem parse_reads_out_of_bounds :
    Parse [] (("<34>Oct 11 22:14:15 host").toList) = ParseOutcome.indexOutOfRange 24 24 := by
  rfl

/-- C9: `parseTag` returns a tag of at most 32 bytes, and whenever the tag is
empty the cursor is restored to its entry value. -/
theorem parseTag_bounded_and_restoring (buff : List Char) (cursor : Nat) :
    (parseTag buff cursor).1.length ≤ 32
    ∧ ((parseTag buff cursor).1 = [] → (parseTag buff cursor).2 = cursor) := by
  have hb := parseTagLoop_length_le buff (min buff.length (cursor + 32) - cursor) cursor [] false
  have hlim : min buff.length (cursor + 32) - cursor ≤ 32 := by
    have := Nat.min_le_right buff.length (cursor + 32)
    omega
  simp only [List.length_nil, Nat.zero_add] at hb
  simp only [parseTag]
  split
  · exact ⟨by simp, fun _ => rfl⟩
  · next hne =>
    refine ⟨le_trans hb hlim, fun he => absurd ?_ hne⟩
    simp [he]

/-- Witness for C9: on a buffer holding a single opening bracket the tag is
empty and the cursor is restored. -/
theorem parseTag_bounded_and_restoring_witness :
    (parseTag ['['] 0).1 = [] ∧ (parseTag ['['] 0).2 = 0 :=
  ⟨by decide, (parseTag_bounded_and_restoring ['['] 0).2 (by decide)⟩

/-- C10: for a metric type other than `direct` and `cpp_provided`,
`GetMetrics` returns the empty non-nil slice, with no error result. -/
theorem getMetrics_unknown_type_empty (t : String) (pm km ag : List MetricRecord)
    (h1 : t ≠ MetricExportTypeGo) (h2 : t ≠ MetricExportTypeCpp) :
    GetMetrics t pm km ag = { isNil := false, elems := [] } := by
  unfold GetMetrics
  simp [h1, h2]

/-- Witness for C10: a concrete unrecognized metric type. -/
theorem getMetrics_unknown_type_empty_witness :
    GetMetrics ("prometheus") [[("a", "1")]] [[("b", "2")]] [[("c", "3")]]
      = { isNil := false, elems := [] } :=
  getMetrics_unknown_type_empty ("prometheus") [[("a", "1")]] [[("b", "2")]] [[("c", "3")]]
    (by decide) (by decide)

end Logtail

